import Mathlib

/-!
Verification of the three animated simulations of the
Electric-Current-Analogies repository (electric circuit, water circuit,
playground slide).  The position functions, per-tick animation steps,
checkpoint-crossing detection, rate estimators and reset handlers are
embedded over exact rational arithmetic; JavaScript's truncating `%`
operator is modelled by `jsMod` and `Math.sqrt` by `ratSqrt` (exact on
perfect squares, which is the only place its value matters for the
properties proved here).
-/

namespace ECA

/-- JavaScript truncation toward zero, as used by the `%` operator. -/
def ratTrunc (q : ℚ) : ℤ := if 0 ≤ q then ⌊q⌋ else ⌈q⌉

/-- JavaScript remainder `a % n` (truncated division). -/
def jsMod (a n : ℚ) : ℚ := a - n * ratTrunc (a / n)

/-- Model of `Math.sqrt` over the rationals: exact whenever the argument is
the square of a rational (every use in the proofs below is either such a
perfect square or multiplied by a zero offset). -/
def ratSqrt (q : ℚ) : ℚ := (Nat.sqrt (q.num.toNat * q.den) : ℚ) / (q.den : ℚ)

/-- A 2-D point, the output of the water and playground position functions. -/
structure Pt where
  x : ℚ
  y : ℚ
deriving DecidableEq

/-- A 2-D point with a rotation angle, the output of the electric position
function. -/
structure PtA where
  x : ℚ
  y : ℚ
  angle : ℚ
deriving DecidableEq

/-- Shared total path length of all three closed paths. -/
def TOTAL_PATH_LENGTH : ℚ := 1000

/-- Initial entity list shared by all three simulations: count entities evenly
spaced, entity i at progress (i / count) * TOTAL_PATH_LENGTH. -/
def seedParticles (count : ℕ) : List (ℕ × ℚ) :=
  (List.range count).map fun i => (i, (i : ℚ) / (count : ℚ) * TOTAL_PATH_LENGTH)

/-- Width-derived speed factor used by the water and playground simulations:
widthFactor = 0.2 + 0.8 * ((width - 10) / 90). -/
def widthFactor (width : ℚ) : ℚ := 0.2 + 0.8 * ((width - 10) / 90)

/-- Rolling-window retention (water and playground rate estimator): keep the
timestamps within the trailing 5 seconds. -/
def recentOf (timestamps : List ℚ) (now : ℚ) : List ℚ :=
  timestamps.filter fun t => decide (now - 5000 ≤ t)

/-- Rolling-window rate (water and playground runSimulation): after pruning,
rate = (length - 1) / timeSpanSeconds when more than one timestamp remains and
the span is positive, otherwise 0. -/
def rateOf (timestamps : List ℚ) (now : ℚ) : ℚ :=
  let recent := recentOf timestamps now
  if 1 < recent.length then
    let timeSpanSeconds := (recent.getD (recent.length - 1) 0 - recent.getD 0 0) / 1000
    if 0 < timeSpanSeconds then ((recent.length : ℚ) - 1) / timeSpanSeconds else 0
  else 0

namespace Electric

def PARTICLE_COUNT : ℕ := 30
def INITIAL_VOLTAGE : ℚ := 50
def INITIAL_WIRE_WIDTH : ℚ := 50
def CHARGE_PER_PARTICLE : ℚ := 0.01

/-- Lane offset of the electric getParticlePosition (SimulationWrapper.tsx
lines 41-44). -/
def particleOffset (particleId totalParticles : ℕ) (width strokeWidth : ℚ) : ℚ :=
  let numLanes : ℤ := max 1 ⌊width / 20⌋
  let lane : ℤ := (particleId : ℤ) % numLanes
  let offsetRange : ℚ := strokeWidth * 0.7
  if 1 < totalParticles then
    ((lane : ℚ) - ((numLanes : ℚ) - 1) / 2) * (offsetRange / (numLanes : ℚ))
  else 0

/-- Electric getParticlePosition (SimulationWrapper.tsx lines 40-75). -/
def getParticlePosition (progress : ℚ) (particleId totalParticles : ℕ)
    (width strokeWidth : ℚ) : PtA :=
  let offset := particleOffset particleId totalParticles width strokeWidth
  let p := jsMod progress TOTAL_PATH_LENGTH
  if p < 250 then
    let t := p / 250
    ⟨50 + t * 250, 50 + offset, 0⟩
  else if p < 325 then
    let t := (p - 250) / 75
    ⟨300 + offset, 50 + t * 75, 90⟩
  else if p < 425 then
    let t := (p - 325) / 100
    ⟨300 - t * 100, 125 + offset, 180⟩
  else if p < 500 then
    let t := (p - 425) / 75
    ⟨200 + offset, 125 + t * 75, 90⟩
  else if p < 750 then
    let t := (p - 500) / 250
    ⟨200 - t * 250, 200 + offset, 180⟩
  else if p < 900 then
    let t := (p - 750) / 150
    ⟨-50 + offset, 200 - t * 150, 270⟩
  else
    let t := (p - 900) / 100
    ⟨-50 + t * 100, 50 + offset, 0⟩

/-- Branch formula of the electric position function on progress range
[0, 250) (top wire, rightward). -/
def seg1 (offset p : ℚ) : PtA := ⟨50 + (p / 250) * 250, 50 + offset, 0⟩

/-- Branch formula on [250, 325) (right wire, downward). -/
def seg2 (offset p : ℚ) : PtA := ⟨300 + offset, 50 + ((p - 250) / 75) * 75, 90⟩

/-- Branch formula on [325, 425) (through the bulb, leftward). -/
def seg3 (offset p : ℚ) : PtA := ⟨300 - ((p - 325) / 100) * 100, 125 + offset, 180⟩

/-- Branch formula on [425, 500) (down from the bulb). -/
def seg4 (offset p : ℚ) : PtA := ⟨200 + offset, 125 + ((p - 425) / 75) * 75, 90⟩

/-- Branch formula on [500, 750) (bottom wire, leftward). -/
def seg5 (offset p : ℚ) : PtA := ⟨200 - ((p - 500) / 250) * 250, 200 + offset, 180⟩

/-- Branch formula on [750, 900) (left wire, upward through the battery). -/
def seg6 (offset p : ℚ) : PtA := ⟨-50 + offset, 200 - ((p - 750) / 150) * 150, 270⟩

/-- Branch formula on [900, 1000) (top-left wire back to the start). -/
def seg7 (offset p : ℚ) : PtA := ⟨-50 + ((p - 900) / 100) * 100, 50 + offset, 0⟩

/-- Electric per-tick particle speed (runSimulation line 118). -/
def speed (voltage : ℚ) : ℚ := voltage / 100 * 4

/-- Electric per-tick progress update. -/
def step (progress voltage : ℚ) : ℚ := progress + speed voltage

/-- Electric checkpoint-crossing condition (runSimulation line 122):
oldProgressMod > 900 and newProgressMod <= 900. -/
def fired (progress voltage : ℚ) : Prop :=
  900 < jsMod progress TOTAL_PATH_LENGTH ∧
    jsMod (step progress voltage) TOTAL_PATH_LENGTH ≤ 900

/-- Electric rate-measurement state: the particlesCrossed and lastMeasureTime
refs and the displayRate state. -/
structure MeasState where
  particlesCrossed : ℕ
  lastMeasureTime : ℚ
  displayRate : ℚ
deriving DecidableEq

/-- Measurement pass at the top of the electric runSimulation (lines 108-115):
at a bucket boundary (at least 1000 ms elapsed) report
particlesCrossed * CHARGE_PER_PARTICLE and reset the counter. -/
def measurePass (s : MeasState) (now : ℚ) : MeasState :=
  if 1000 ≤ now - s.lastMeasureTime then
    ⟨0, now, (s.particlesCrossed : ℚ) * CHARGE_PER_PARTICLE⟩
  else s

/-- A recorded crossing increments the particlesCrossed counter (line 123). -/
def recordCrossing (s : MeasState) : MeasState :=
  { s with particlesCrossed := s.particlesCrossed + 1 }

/-- Body of the electric useEffect on measureRate when measurement is disabled
(lines 99-103). -/
def disableMeasurement (s : MeasState) (now : ℚ) : MeasState := ⟨0, now, 0⟩

/-- Full electric component state relevant to reset. -/
structure State where
  isPlaying : Bool
  voltage : ℚ
  wireWidth : ℚ
  measureRate : Bool
  displayRate : ℚ
  particlesCrossed : ℕ
  lastMeasureTime : ℚ
  particles : List (ℕ × ℚ)

/-- Electric handleReset (SimulationWrapper.tsx lines 147-158). -/
def handleReset (s : State) : State :=
  { s with
    isPlaying := false
    voltage := INITIAL_VOLTAGE
    wireWidth := INITIAL_WIRE_WIDTH
    measureRate := false
    particles := seedParticles PARTICLE_COUNT }

/-- Electric useEffect [measureRate] (lines 97-104): when measurement is off,
clear the counter, restart the bucket clock and zero the display. -/
def measureRateEffect (s : State) (now : ℚ) : State :=
  if s.measureRate then s
  else { s with particlesCrossed := 0, lastMeasureTime := now, displayRate := 0 }

/-- Reset followed by the React effect, which runs exactly when the
measureRate value changed. -/
def reset (s : State) (now : ℚ) : State :=
  let s1 := handleReset s
  if s1.measureRate = s.measureRate then s1 else measureRateEffect s1 now

end Electric

namespace Water

def PARTICLE_COUNT : ℕ := 40
def INITIAL_HEIGHT_DIFFERENCE : ℚ := 50
def INITIAL_PIPE_WIDTH : ℚ := 50
def VOLUME_PER_PARTICLE : ℚ := 0.05
def CROSSING_POINT : ℚ := 450

/-- Height of the top reservoir (water getParticlePosition line 14). -/
def topY (heightDifference : ℚ) : ℚ := 180 - heightDifference / 100 * 140

/-- Lane offset of the water getParticlePosition (lines 18-21). -/
def particleOffset (particleId totalParticles : ℕ) (width strokeWidth : ℚ) : ℚ :=
  let numLanes : ℤ := max 1 ⌊width / 25⌋
  let lane : ℤ := (particleId : ℤ) % numLanes
  let offsetRange : ℚ := strokeWidth * 0.8
  if 1 < totalParticles then
    ((lane : ℚ) - ((numLanes : ℚ) - 1) / 2) * (offsetRange / (numLanes : ℚ))
  else 0

/-- Inner calculatePosition helper of the water getParticlePosition
(lines 33-43): linear interpolation plus the lane offset along the unit
normal of the segment; a zero magnitude is replaced by 1 (the JS "|| 1"). -/
def calculatePosition (offset : ℚ) (s e : Pt) (prog : ℚ) : Pt :=
  let x := s.x + (e.x - s.x) * prog
  let y := s.y + (e.y - s.y) * prog
  let vecX := e.x - s.x
  let vecY := e.y - s.y
  let m := ratSqrt (vecX * vecX + vecY * vecY)
  let mag := if m = 0 then 1 else m
  let normalX := vecY / mag
  let normalY := -vecX / mag
  ⟨x + offset * normalX, y + offset * normalY⟩

def P_TURBINE : Pt := ⟨150, 240⟩
def P_BOTTOM_INLET : Pt := ⟨70, 300⟩
def P_BOTTOM_OUTLET : Pt := ⟨20, 300⟩
def P_PUMP_INLET : Pt := ⟨20, 220⟩

def P_TOP_OUTLET (heightDifference : ℚ) : Pt := ⟨180, topY heightDifference + 30⟩
def P_TOP_INLET (heightDifference : ℚ) : Pt := ⟨180, topY heightDifference⟩

/-- Water getParticlePosition (part_000 lines 13-52). -/
def getParticlePosition (progress : ℚ) (particleId totalParticles : ℕ)
    (width strokeWidth heightDifference : ℚ) : Pt :=
  let offset := particleOffset particleId totalParticles width strokeWidth
  let p := jsMod progress TOTAL_PATH_LENGTH
  if p < 200 then calculatePosition offset (P_TOP_OUTLET heightDifference) P_TURBINE (p / 200)
  else if p < 350 then calculatePosition offset P_TURBINE P_BOTTOM_INLET ((p - 200) / 150)
  else if p < 400 then ⟨P_BOTTOM_INLET.x, P_BOTTOM_INLET.y⟩
  else if p < 500 then calculatePosition offset P_BOTTOM_OUTLET P_PUMP_INLET ((p - 400) / 100)
  else if p < 750 then
    calculatePosition offset P_PUMP_INLET ⟨20, topY heightDifference⟩ ((p - 500) / 250)
  else if p < 950 then
    calculatePosition offset ⟨20, topY heightDifference⟩ (P_TOP_INLET heightDifference) ((p - 750) / 200)
  else ⟨(P_TOP_INLET heightDifference).x, (P_TOP_INLET heightDifference).y⟩

/-- Branch formula of the water position function on [0, 200) (gravity pipe
to the turbine). -/
def seg1 (offset heightDifference p : ℚ) : Pt :=
  calculatePosition offset (P_TOP_OUTLET heightDifference) P_TURBINE (p / 200)

/-- Branch formula on [200, 350) (turbine to the bottom reservoir). -/
def seg2 (offset p : ℚ) : Pt :=
  calculatePosition offset P_TURBINE P_BOTTOM_INLET ((p - 200) / 150)

/-- Branch formula on [350, 400) (inside the bottom reservoir). -/
def seg3 (p : ℚ) : Pt := ⟨P_BOTTOM_INLET.x, P_BOTTOM_INLET.y⟩

/-- Branch formula on [400, 500) (suction pipe up to the pump). -/
def seg4 (offset p : ℚ) : Pt :=
  calculatePosition offset P_BOTTOM_OUTLET P_PUMP_INLET ((p - 400) / 100)

/-- Branch formula on [500, 750) (pump column upward). -/
def seg5 (offset heightDifference p : ℚ) : Pt :=
  calculatePosition offset P_PUMP_INLET ⟨20, topY heightDifference⟩ ((p - 500) / 250)

/-- Branch formula on [750, 950) (top pipe to the top reservoir). -/
def seg6 (offset heightDifference p : ℚ) : Pt :=
  calculatePosition offset ⟨20, topY heightDifference⟩ (P_TOP_INLET heightDifference) ((p - 750) / 200)

/-- Branch formula on [950, 1000) (inside the top reservoir). -/
def seg7 (heightDifference p : ℚ) : Pt :=
  ⟨(P_TOP_INLET heightDifference).x, (P_TOP_INLET heightDifference).y⟩

/-- Water pump-segment speed (runSimulation line 120). -/
def pumpSpeed (width : ℚ) : ℚ := 3 * widthFactor width

/-- Water gravity-segment speed (runSimulation line 121). -/
def gravitySpeed (heightDifference width : ℚ) : ℚ :=
  (0.5 + heightDifference / 100 * 4) * widthFactor width

/-- Per-tick speed of a water particle (runSimulation lines 127-128): gravity
speed below progress 350 (mod 1000), pump speed otherwise. -/
def speedAt (progress heightDifference width : ℚ) : ℚ :=
  if jsMod progress TOTAL_PATH_LENGTH < 350 then gravitySpeed heightDifference width
  else pumpSpeed width

/-- Water per-tick progress update (line 131). -/
def step (progress heightDifference width : ℚ) : ℚ :=
  progress + speedAt progress heightDifference width

/-- Water checkpoint-crossing condition (line 135):
oldProgressMod < CROSSING_POINT and newProgressMod >= CROSSING_POINT. -/
def fired (progress heightDifference width : ℚ) : Prop :=
  jsMod progress TOTAL_PATH_LENGTH < CROSSING_POINT ∧
    CROSSING_POINT ≤ jsMod (step progress heightDifference width) TOTAL_PATH_LENGTH

/-- Throttled rolling-window rate pass of the water runSimulation
(lines 100-114), acting on the crossings log, the lastUiUpdateTime ref and
the displayed rate. -/
def ratePass (log : List ℚ) (lastUiUpdateTime displayRate now : ℚ) :
    List ℚ × ℚ × ℚ :=
  if 100 < now - lastUiUpdateTime then
    (recentOf log now, now, rateOf log now * VOLUME_PER_PARTICLE)
  else (log, lastUiUpdateTime, displayRate)

/-- Full water component state relevant to reset and measurement. -/
structure State where
  isPlaying : Bool
  heightDifference : ℚ
  pipeWidth : ℚ
  turbineRotation : ℚ
  measureRate : Bool
  displayRate : ℚ
  crossingsTimestamps : List ℚ
  lastUiUpdateTime : ℚ
  particles : List (ℕ × ℚ)

/-- Water handleReset (part_000 lines 170-182). -/
def handleReset (s : State) : State :=
  { s with
    isPlaying := false
    heightDifference := INITIAL_HEIGHT_DIFFERENCE
    pipeWidth := INITIAL_PIPE_WIDTH
    turbineRotation := 0
    measureRate := false
    particles := seedParticles PARTICLE_COUNT }

/-- Water useEffect [measureRate] (lines 76-85): disabling clears the log and
zeroes the display; enabling clears the log and restarts the throttle clock. -/
def measureRateEffect (s : State) (now : ℚ) : State :=
  if s.measureRate then { s with crossingsTimestamps := [], lastUiUpdateTime := now }
  else { s with crossingsTimestamps := [], displayRate := 0 }

/-- Reset followed by the React effect, which runs exactly when the
measureRate value changed. -/
def reset (s : State) (now : ℚ) : State :=
  let s1 := handleReset s
  if s1.measureRate = s.measureRate then s1 else measureRateEffect s1 now

end Water

namespace Playground

def KID_COUNT : ℕ := 15
def INITIAL_SLIDE_HEIGHT : ℚ := 50
def INITIAL_SLIDE_WIDTH : ℚ := 50
def CROSSING_POINT : ℚ := 450

/-- Top of the slide (PlaygroundSlide.tsx line 27). -/
def topY (slideHeight : ℚ) : ℚ := 100 - slideHeight / 100 * 80

/-- Lane offset of getKidPosition (lines 20-22): a fixed 12-unit lane
spacing, not scaled by any stroke width. -/
def kidOffset (kidId totalKids : ℕ) (width : ℚ) : ℚ :=
  let numLanes : ℤ := max 1 ⌊width / 25⌋
  let lane : ℤ := (kidId : ℤ) % numLanes
  if 1 < totalKids then ((lane : ℚ) - ((numLanes : ℚ) - 1) / 2) * 12 else 0

/-- Playground getKidPosition (PlaygroundSlide.tsx lines 18-65). -/
def getKidPosition (progress : ℚ) (kidId totalKids : ℕ)
    (width slideHeight : ℚ) : Pt :=
  let offset := kidOffset kidId totalKids width
  let p := jsMod progress TOTAL_PATH_LENGTH
  let ty := topY slideHeight
  if p < 300 then
    let t := p / 300
    let p0 : Pt := ⟨50, ty⟩
    let p1 : Pt := ⟨150, ty⟩
    let p2 : Pt := ⟨150, 200⟩
    let p3 : Pt := ⟨250, 200⟩
    let tInv := 1 - t
    let x := tInv ^ 3 * p0.x + 3 * tInv ^ 2 * t * p1.x + 3 * tInv * t ^ 2 * p2.x + t ^ 3 * p3.x
    let y := tInv ^ 3 * p0.y + 3 * tInv ^ 2 * t * p1.y + 3 * tInv * t ^ 2 * p2.y + t ^ 3 * p3.y
    let dx := 3 * tInv ^ 2 * (p1.x - p0.x) + 6 * tInv * t * (p2.x - p1.x) + 3 * t ^ 2 * (p3.x - p2.x)
    let dy := 3 * tInv ^ 2 * (p1.y - p0.y) + 6 * tInv * t * (p2.y - p1.y) + 3 * t ^ 2 * (p3.y - p2.y)
    let mag := ratSqrt (dx * dx + dy * dy)
    if mag = 0 then ⟨x, y⟩
    else ⟨x + offset * (-dy / mag), y + offset * (dx / mag)⟩
  else if p < 600 then
    let runProgress := (p - 300) / 300
    ⟨250 - runProgress * 200, 200 + offset⟩
  else if p < 1000 then
    let elevatorProgress := (p - 600) / 400
    ⟨50 + offset, 200 - elevatorProgress * (200 - ty)⟩
  else ⟨0, 0⟩

/-- Branch formula of the kid position function on [0, 300) (Bezier slide). -/
def seg1 (offset slideHeight p : ℚ) : Pt :=
  let t := p / 300
  let ty := topY slideHeight
  let p0 : Pt := ⟨50, ty⟩
  let p1 : Pt := ⟨150, ty⟩
  let p2 : Pt := ⟨150, 200⟩
  let p3 : Pt := ⟨250, 200⟩
  let tInv := 1 - t
  let x := tInv ^ 3 * p0.x + 3 * tInv ^ 2 * t * p1.x + 3 * tInv * t ^ 2 * p2.x + t ^ 3 * p3.x
  let y := tInv ^ 3 * p0.y + 3 * tInv ^ 2 * t * p1.y + 3 * tInv * t ^ 2 * p2.y + t ^ 3 * p3.y
  let dx := 3 * tInv ^ 2 * (p1.x - p0.x) + 6 * tInv * t * (p2.x - p1.x) + 3 * t ^ 2 * (p3.x - p2.x)
  let dy := 3 * tInv ^ 2 * (p1.y - p0.y) + 6 * tInv * t * (p2.y - p1.y) + 3 * t ^ 2 * (p3.y - p2.y)
  let mag := ratSqrt (dx * dx + dy * dy)
  if mag = 0 then ⟨x, y⟩
  else ⟨x + offset * (-dy / mag), y + offset * (dx / mag)⟩

/-- Branch formula on [300, 600) (running back, horizontal). -/
def seg2 (offset p : ℚ) : Pt := ⟨250 - ((p - 300) / 300) * 200, 200 + offset⟩

/-- Branch formula on [600, 1000) (elevator up, vertical). -/
def seg3 (offset slideHeight p : ℚ) : Pt :=
  ⟨50 + offset, 200 - ((p - 600) / 400) * (200 - topY slideHeight)⟩

/-- Playground slide-segment speed (runSimulation line 134). -/
def slideSpeed (slideHeight width : ℚ) : ℚ :=
  (1.5 + slideHeight / 100 * 4) * widthFactor width

/-- Playground run-segment speed (line 135). -/
def runSpeed (width : ℚ) : ℚ := 2 * widthFactor width

/-- Playground elevator-segment speed (line 136). -/
def elevatorSpeed (width : ℚ) : ℚ := 3 * widthFactor width

/-- Per-tick speed of a kid (runSimulation lines 140-149). -/
def speedAt (progress slideHeight width : ℚ) : ℚ :=
  if jsMod progress TOTAL_PATH_LENGTH < 300 then slideSpeed slideHeight width
  else if jsMod progress TOTAL_PATH_LENGTH < 600 then runSpeed width
  else elevatorSpeed width

/-- Playground per-tick progress update (line 151). -/
def step (progress slideHeight width : ℚ) : ℚ :=
  progress + speedAt progress slideHeight width

/-- Playground checkpoint-crossing condition (line 155). -/
def fired (progress slideHeight width : ℚ) : Prop :=
  jsMod progress TOTAL_PATH_LENGTH < CROSSING_POINT ∧
    CROSSING_POINT ≤ jsMod (step progress slideHeight width) TOTAL_PATH_LENGTH

/-- Throttled rolling-window rate pass of the playground runSimulation
(lines 113-127); the display shows the raw rate (kids per second). -/
def ratePass (log : List ℚ) (lastUiUpdateTime displayRate now : ℚ) :
    List ℚ × ℚ × ℚ :=
  if 100 < now - lastUiUpdateTime then
    (recentOf log now, now, rateOf log now)
  else (log, lastUiUpdateTime, displayRate)

/-- Full playground component state relevant to reset and measurement. -/
structure State where
  isPlaying : Bool
  slideHeight : ℚ
  slideWidth : ℚ
  measureRate : Bool
  displayRate : ℚ
  crossingsTimestamps : List ℚ
  lastUiUpdateTime : ℚ
  kids : List (ℕ × ℚ)

/-- Rendered stroke width of the slide (PlaygroundSlide.tsx line 194),
driven by the slideWidth slider. -/
def slideStrokeWidth (slideWidth : ℚ) : ℚ := 8 + slideWidth / 100 * 16

/-- Playground handleReset (PlaygroundSlide.tsx lines 181-192). -/
def handleReset (s : State) : State :=
  { s with
    isPlaying := false
    slideHeight := INITIAL_SLIDE_HEIGHT
    slideWidth := INITIAL_SLIDE_WIDTH
    measureRate := false
    kids := seedParticles KID_COUNT }

/-- Playground useEffect [measureRate] (lines 88-97). -/
def measureRateEffect (s : State) (now : ℚ) : State :=
  if s.measureRate then { s with crossingsTimestamps := [], lastUiUpdateTime := now }
  else { s with crossingsTimestamps := [], displayRate := 0 }

/-- Reset followed by the React effect, which runs exactly when the
measureRate value changed. -/
def reset (s : State) (now : ℚ) : State :=
  let s1 := handleReset s
  if s1.measureRate = s.measureRate then s1 else measureRateEffect s1 now

end Playground

/-- A concrete electric component state (mid-play, measuring) used to
instantiate reset theorems. -/
def sampleElectricState : Electric.State :=
  ⟨true, 80, 30, true, 7, 5, 123, [(0, 777)]⟩

/-- A concrete water component state used to instantiate reset theorems. -/
def sampleWaterState : Water.State :=
  ⟨true, 20, 90, 33, true, 2, [100, 200], 150, [(0, 640)]⟩

/-- A concrete playground component state used to instantiate reset
theorems. -/
def samplePlaygroundState : Playground.State :=
  ⟨true, 60, 10, true, 4, [40], 90, [(0, 12)]⟩

end ECA

namespace ECA

theorem ratTrunc_eq_zero {q : ℚ} (h1 : -1 < q) (h2 : q < 1) : ratTrunc q = 0 := by
  unfold ratTrunc
  split_ifs with h
  · exact Int.floor_eq_zero_iff.mpr ⟨h, h2⟩
  · exact Int.ceil_eq_zero_iff.mpr ⟨h1, le_of_not_le h⟩

theorem jsMod_nonneg_eq (a : ℚ) (h : 0 ≤ a) :
    jsMod a 1000 = a - 1000 * ⌊a / 1000⌋ := by
  unfold jsMod ratTrunc
  rw [if_pos (by positivity)]

theorem jsMod_nonneg_bounds (a : ℚ) (h : 0 ≤ a) :
    0 ≤ jsMod a 1000 ∧ jsMod a 1000 < 1000 := by
  rw [jsMod_nonneg_eq a h]
  constructor
  · have := Int.floor_le (a / 1000)
    nlinarith
  · have := Int.lt_floor_add_one (a / 1000)
    nlinarith

theorem jsMod_neg_bounds (a : ℚ) (h : a < 0) :
    -1000 < jsMod a 1000 ∧ jsMod a 1000 ≤ 0 := by
  unfold jsMod ratTrunc
  rw [if_neg (by intro hc; nlinarith)]
  have h1 := Int.le_ceil (a / 1000)
  have h2 := Int.ceil_lt_add_one (a / 1000)
  constructor <;> nlinarith

theorem jsMod_idem (a : ℚ) : jsMod (jsMod a 1000) 1000 = jsMod a 1000 := by
  have key : ∀ b : ℚ, -1000 < b → b < 1000 → jsMod b 1000 = b := by
    intro b hb1 hb2
    unfold jsMod
    rw [ratTrunc_eq_zero (by linarith [show (0:ℚ) < 1000 by norm_num]; ) (by linarith)]
    · ring
  rcases lt_or_le a 0 with ha | ha
  · obtain ⟨h1, h2⟩ := jsMod_neg_bounds a ha
    exact key _ h1 (by linarith)
  · obtain ⟨h1, h2⟩ := jsMod_nonneg_bounds a ha
    exact key _ (by linarith) h2

theorem jsMod_decompose (q : ℤ) (x : ℚ) (hq : 0 ≤ q) (hx0 : 0 ≤ x) (hx1 : x < 1000) :
    jsMod (1000 * q + x) 1000 = x := by
  have harg : (1000 * (q : ℚ) + x) / 1000 = (q : ℚ) + x / 1000 := by ring
  have hfl : ⌊(q : ℚ) + x / 1000⌋ = q + ⌊x / 1000⌋ := by
    rw [add_comm, Int.floor_add_int, add_comm]
  have hx : ⌊x / 1000⌋ = 0 :=
    Int.floor_eq_zero_iff.mpr ⟨by positivity, by rw [div_lt_one] <;> norm_num [hx1]⟩
  unfold jsMod ratTrunc
  rw [harg, if_pos, hfl, hx]
  · push_cast
    ring
  · have h1 : (0:ℚ) ≤ x / 1000 := by positivity
    have h2 : (0:ℚ) ≤ (q : ℚ) := by exact_mod_cast hq
    linarith

theorem jsMod_self_decompose (a : ℚ) (h : 0 ≤ a) :
    a = 1000 * ⌊a / 1000⌋ + jsMod a 1000 ∧ 0 ≤ ⌊a / 1000⌋ := by
  constructor
  · rw [jsMod_nonneg_eq a h]; ring
  · exact Int.floor_nonneg.mpr (by positivity)

theorem crossing_checkpoint_iff (P s c : ℚ) (hP : 0 ≤ P) (hs : 0 ≤ s)
    (hc0 : 0 < c) (hc1 : c < 1000) (hsc : s < c) (hsc2 : s < 1000 - c) :
    (jsMod P 1000 < c ∧ c ≤ jsMod (P + s) 1000) ↔
      ∃ k : ℕ, P < 1000 * k + c ∧ 1000 * k + c ≤ P + s := by
  obtain ⟨hdec, hq⟩ := jsMod_self_decompose P hP
  obtain ⟨hr0, hr1⟩ := jsMod_nonneg_bounds P hP
  set q := ⌊P / 1000⌋ with hqdef
  set r := jsMod P 1000 with hrdef
  have hqcast : ((q.toNat : ℕ) : ℚ) = (q : ℚ) := by
    exact_mod_cast congrArg (fun z : ℤ => (z : ℚ)) (Int.toNat_of_nonneg hq)
  constructor
  · rintro ⟨h1, h2⟩
    have hsum : P + s = 1000 * q + (r + s) := by linarith
    have hnew : jsMod (P + s) 1000 = r + s := by
      rw [hsum]
      exact jsMod_decompose q (r + s) hq (by linarith) (by linarith)
    rw [hnew] at h2
    exact ⟨q.toNat, by rw [hqcast]; linarith, by rw [hqcast]; linarith⟩
  · rintro ⟨k, hk1, hk2⟩
    have hkq : ((k : ℤ) : ℚ) = ((q : ℚ)) := by
      have hup : (k : ℚ) < (q : ℚ) + 1 := by nlinarith
      have hdown : (q : ℚ) < (k : ℚ) + 1 := by nlinarith
      have h1 : (k : ℤ) < q + 1 := by exact_mod_cast hup
      have h2 : q < (k : ℤ) + 1 := by exact_mod_cast hdown
      have : (k : ℤ) = q := by omega
      exact_mod_cast this
    push_cast at hkq
    have hrc : r < c := by nlinarith
    have hcs : c ≤ r + s := by nlinarith
    have hsum : P + s = 1000 * q + (r + s) := by linarith
    have hnew : jsMod (P + s) 1000 = r + s := by
      rw [hsum]
      exact jsMod_decompose q (r + s) hq (by linarith) (by linarith)
    exact ⟨hrc, by rw [hnew]; linarith⟩

theorem crossing_checkpoint_unique (P s c : ℚ) (hs : s < 1000)
    (k₁ k₂ : ℕ) (h₁ : P < 1000 * k₁ + c ∧ 1000 * k₁ + c ≤ P + s)
    (h₂ : P < 1000 * k₂ + c ∧ 1000 * k₂ + c ≤ P + s) : k₁ = k₂ := by
  obtain ⟨h₁a, h₁b⟩ := h₁
  obtain ⟨h₂a, h₂b⟩ := h₂
  have hup : (k₁ : ℚ) < (k₂ : ℚ) + 1 := by nlinarith
  have hdown : (k₂ : ℚ) < (k₁ : ℚ) + 1 := by nlinarith
  have h1 : k₁ < k₂ + 1 := by exact_mod_cast hup
  have h2 : k₂ < k₁ + 1 := by exact_mod_cast hdown
  omega

theorem wrap_crossing_iff (P s : ℚ) (hP : 0 ≤ P) (hs0 : 0 ≤ s) (hs1 : s < 100) :
    (900 < jsMod P 1000 ∧ jsMod (P + s) 1000 ≤ 900) ↔
      ∃ k : ℕ, P < 1000 * k ∧ 1000 * k ≤ P + s := by
  obtain ⟨hdec, hq⟩ := jsMod_self_decompose P hP
  obtain ⟨hr0, hr1⟩ := jsMod_nonneg_bounds P hP
  set q := ⌊P / 1000⌋ with hqdef
  set r := jsMod P 1000 with hrdef
  constructor
  · rintro ⟨h1, h2⟩
    rcases lt_or_le (r + s) 1000 with hcase | hcase
    · exfalso
      have hsum : P + s = 1000 * q + (r + s) := by linarith
      have hnew : jsMod (P + s) 1000 = r + s := by
        rw [hsum]
        exact jsMod_decompose q (r + s) hq (by linarith) hcase
      rw [hnew] at h2
      linarith
    · refine ⟨(q + 1).toNat, ?_, ?_⟩ <;>
      · have hcast : (((q + 1).toNat : ℕ) : ℚ) = ((q : ℚ)) + 1 := by
          have := Int.toNat_of_nonneg (by omega : 0 ≤ q + 1)
          exact_mod_cast congrArg (fun z : ℤ => (z : ℚ)) this
        rw [hcast]
        linarith
  · rintro ⟨k, hk1, hk2⟩
    have hkq : ((k : ℤ) : ℚ) = ((q : ℚ)) + 1 := by
      have hup : (k : ℚ) < (q : ℚ) + 2 := by nlinarith
      have hdown : (q : ℚ) < (k : ℚ) := by nlinarith
      have h1 : (k : ℤ) < q + 2 := by exact_mod_cast hup
      have h2 : q < (k : ℤ) := by exact_mod_cast hdown
      have : (k : ℤ) = q + 1 := by omega
      rw [this]
      push_cast
      ring
    push_cast at hkq
    have hr : 1000 - s ≤ r := by nlinarith
    have hsum : P + s = 1000 * ((q + 1 : ℤ) : ℚ) + (r + s - 1000) := by
      push_cast
      linarith
    have hnew : jsMod (P + s) 1000 = r + s - 1000 := by
      rw [hsum]
      exact jsMod_decompose (q + 1) (r + s - 1000) (by omega) (by linarith) (by linarith)
    exact ⟨by linarith, by rw [hnew]; linarith⟩

theorem widthFactor_bounds (w : ℚ) (h1 : 10 ≤ w) (h2 : w ≤ 100) :
    0.2 ≤ widthFactor w ∧ widthFactor w ≤ 1 := by
  unfold widthFactor
  constructor <;> nlinarith

theorem water_speedAt_bounds (P h w : ℚ) (hh1 : 10 ≤ h) (hh2 : h ≤ 100)
    (hw1 : 10 ≤ w) (hw2 : w ≤ 100) :
    0 ≤ Water.speedAt P h w ∧ Water.speedAt P h w ≤ 4.5 := by
  obtain ⟨hf1, hf2⟩ := widthFactor_bounds w hw1 hw2
  unfold Water.speedAt Water.gravitySpeed Water.pumpSpeed
  split_ifs <;> constructor <;> nlinarith

theorem playground_speedAt_bounds (P h w : ℚ) (hh1 : 10 ≤ h) (hh2 : h ≤ 100)
    (hw1 : 10 ≤ w) (hw2 : w ≤ 100) :
    0 ≤ Playground.speedAt P h w ∧ Playground.speedAt P h w ≤ 5.5 := by
  obtain ⟨hf1, hf2⟩ := widthFactor_bounds w hw1 hw2
  unfold Playground.speedAt Playground.slideSpeed Playground.runSpeed Playground.elevatorSpeed
  split_ifs <;> constructor <;> nlinarith

/-- C2: while rate measurement is active, on every tick each simulation's
crossing condition holds if and only if the unwrapped progress passes a copy
of its checkpoint (1000k + 450 for water and playground, a multiple of 1000 —
the electric checkpoint is the 1000/0 wrap point — for electric), i.e. the
inequality-based test oldProgressMod < checkpoint ≤ newProgressMod with
wraparound accounted for; the crossing index k is unique, so detection fires
exactly once per full traversal even when the speed overshoots the checkpoint
value without equalling it. -/
theorem C2_crossing_detection (P voltage h w : ℚ) (hP : 0 ≤ P)
    (hv1 : 0 ≤ voltage) (hv2 : voltage ≤ 100)
    (hh1 : 10 ≤ h) (hh2 : h ≤ 100) (hw1 : 10 ≤ w) (hw2 : w ≤ 100) :
    (Water.fired P h w ↔
      ∃ k : ℕ, P < 1000 * k + 450 ∧ 1000 * k + 450 ≤ Water.step P h w) ∧
    (Playground.fired P h w ↔
      ∃ k : ℕ, P < 1000 * k + 450 ∧ 1000 * k + 450 ≤ Playground.step P h w) ∧
    (Electric.fired P voltage ↔
      ∃ k : ℕ, P < 1000 * k ∧ 1000 * k ≤ Electric.step P voltage) ∧
    (∀ k₁ k₂ : ℕ,
      (P < 1000 * k₁ + 450 ∧ 1000 * k₁ + 450 ≤ Water.step P h w) →
      (P < 1000 * k₂ + 450 ∧ 1000 * k₂ + 450 ≤ Water.step P h w) → k₁ = k₂) ∧
    (∀ k₁ k₂ : ℕ,
      (P < 1000 * k₁ + 450 ∧ 1000 * k₁ + 450 ≤ Playground.step P h w) →
      (P < 1000 * k₂ + 450 ∧ 1000 * k₂ + 450 ≤ Playground.step P h w) → k₁ = k₂) := by
  obtain ⟨hws1, hws2⟩ := water_speedAt_bounds P h w hh1 hh2 hw1 hw2
  obtain ⟨hps1, hps2⟩ := playground_speedAt_bounds P h w hh1 hh2 hw1 hw2
  have hes1 : 0 ≤ Electric.speed voltage := by unfold Electric.speed; positivity
  have hes2 : Electric.speed voltage ≤ 4 := by unfold Electric.speed; linarith
  refine ⟨?_, ?_, ?_, ?_, ?_⟩
  · unfold Water.fired Water.step Water.CROSSING_POINT TOTAL_PATH_LENGTH
    exact crossing_checkpoint_iff P (Water.speedAt P h w) 450 hP hws1 (by norm_num)
      (by norm_num) (by linarith) (by linarith)
  · unfold Playground.fired Playground.step Playground.CROSSING_POINT TOTAL_PATH_LENGTH
    exact crossing_checkpoint_iff P (Playground.speedAt P h w) 450 hP hps1 (by norm_num)
      (by norm_num) (by linarith) (by linarith)
  · unfold Electric.fired Electric.step TOTAL_PATH_LENGTH
    exact wrap_crossing_iff P (Electric.speed voltage) hP hes1 (by linarith)
  · intro k₁ k₂ h₁ h₂
    exact crossing_checkpoint_unique P (Water.speedAt P h w) 450 (by linarith) k₁ k₂ h₁ h₂
  · intro k₁ k₂ h₁ h₂
    exact crossing_checkpoint_unique P (Playground.speedAt P h w) 450 (by linarith) k₁ k₂ h₁ h₂

/-- C3: per-tick speeds equal the documented closed-form expressions:
electric speed = (voltage/100)*4, independent of the wire width (the width is
not even an input of the electric speed); water uses the gravity speed below
progress 350 (mod 1000) and the pump speed otherwise; the playground uses the
slide, run and elevator speeds on [0,300), [300,600) and [600,1000)
respectively; each scaled by widthFactor = 0.2 + 0.8*((width-10)/90). -/
theorem C3_speed_formulas (progress voltage heightDifference width slideHeight : ℚ) :
    Electric.step progress voltage - progress = voltage / 100 * 4 ∧
    Water.step progress heightDifference width - progress =
      (if jsMod progress TOTAL_PATH_LENGTH < 350
        then (0.5 + heightDifference / 100 * 4) * (0.2 + 0.8 * ((width - 10) / 90))
        else 3 * (0.2 + 0.8 * ((width - 10) / 90))) ∧
    Playground.step progress slideHeight width - progress =
      (if jsMod progress TOTAL_PATH_LENGTH < 300
        then (1.5 + slideHeight / 100 * 4) * (0.2 + 0.8 * ((width - 10) / 90))
        else if jsMod progress TOTAL_PATH_LENGTH < 600
        then 2 * (0.2 + 0.8 * ((width - 10) / 90))
        else 3 * (0.2 + 0.8 * ((width - 10) / 90))) := by
  refine ⟨by unfold Electric.step Electric.speed; ring, ?_, ?_⟩
  · unfold Water.step Water.speedAt Water.gravitySpeed Water.pumpSpeed widthFactor
    split_ifs <;> ring
  · unfold Playground.step Playground.speedAt Playground.slideSpeed Playground.runSpeed
      Playground.elevatorSpeed widthFactor
    split_ifs <;> ring

/-- C10: in the rolling-window estimator, whenever at least two timestamps
are retained but the span between oldest and newest is zero, the reported
rate is 0; the division producing a nonzero rate is only reached under the
positive-span guard. -/
theorem C10_zero_span_guard (log : List ℚ) (now : ℚ) :
    (1 < (recentOf log now).length →
      (recentOf log now).getD ((recentOf log now).length - 1) 0 =
        (recentOf log now).getD 0 0 →
      rateOf log now = 0) ∧
    (rateOf log now = 0 ∨
      (1 < (recentOf log now).length ∧
        0 < ((recentOf log now).getD ((recentOf log now).length - 1) 0 -
              (recentOf log now).getD 0 0) / 1000 ∧
        rateOf log now =
          (((recentOf log now).length : ℚ) - 1) /
            (((recentOf log now).getD ((recentOf log now).length - 1) 0 -
              (recentOf log now).getD 0 0) / 1000))) := by
  constructor
  · intro hlen heq
    simp only [rateOf]
    rw [if_pos hlen, heq, if_neg]
    norm_num
  · simp only [rateOf]
    split_ifs with h1 h2
    · exact Or.inr ⟨h1, h2, rfl⟩
    · exact Or.inl rfl
    · exact Or.inl rfl

/-- Witness for C10 at the concrete log [5, 5] queried at time 5: both
timestamps are retained, the span is zero, and the rate is 0. -/
theorem C10_witness :
    1 < (recentOf [5, 5] 5).length ∧ rateOf [5, 5] 5 = 0 :=
  ⟨by norm_num [recentOf], (C10_zero_span_guard [5, 5] 5).1
    (by norm_num [recentOf]) (by norm_num [recentOf])⟩

theorem recentOf_mem_ge (log : List ℚ) (now t : ℚ) (h : t ∈ recentOf log now) :
    now - 5000 ≤ t := by
  unfold recentOf at h
  have := (List.mem_filter.mp h).2
  exact of_decide_eq_true this

/-- C4: each throttled rolling-window estimation pass of the water and
playground simulations (run only when more than 100 ms have elapsed) replaces
the log by the timestamps of the trailing 5 seconds and reports
(retained − 1) / timeSpanSeconds, or 0 when fewer than two timestamps remain;
on the log [0, 1000, 2000] queried at t = 2000 the computed rate is exactly 1
crossing per second, and a single retained timestamp yields 0. -/
theorem C4_rolling_window (log : List ℚ) (lastUi display now : ℚ) :
    (¬ 100 < now - lastUi →
      Water.ratePass log lastUi display now = (log, lastUi, display) ∧
      Playground.ratePass log lastUi display now = (log, lastUi, display)) ∧
    (100 < now - lastUi →
      Water.ratePass log lastUi display now =
        (recentOf log now, now, rateOf log now * Water.VOLUME_PER_PARTICLE) ∧
      Playground.ratePass log lastUi display now =
        (recentOf log now, now, rateOf log now)) ∧
    (∀ t ∈ recentOf log now, now - 5000 ≤ t) ∧
    ((recentOf log now).length < 2 → rateOf log now = 0) ∧
    rateOf [0, 1000, 2000] 2000 = 1 ∧
    rateOf [500] 2000 = 0 := by
  refine ⟨?_, ?_, ?_, ?_, ?_, ?_⟩
  · intro h
    unfold Water.ratePass Playground.ratePass
    rw [if_neg h, if_neg h]
    exact ⟨rfl, rfl⟩
  · intro h
    unfold Water.ratePass Playground.ratePass
    rw [if_pos h, if_pos h]
    exact ⟨rfl, rfl⟩
  · exact fun t ht => recentOf_mem_ge log now t ht
  · intro h
    simp only [rateOf]
    rw [if_neg (by omega)]
  · norm_num [rateOf, recentOf]
  · norm_num [rateOf, recentOf]

/-- Witness for C4: a pass at t = 2000 with the throttle open on the log
[0, 1000, 2000], showing the pass stores the pruned log and the computed
rate. -/
theorem C4_witness :
    (100 : ℚ) < 2000 - 0 ∧
    Water.ratePass [0, 1000, 2000] 0 7 2000 =
      (recentOf [0, 1000, 2000] 2000, 2000,
        rateOf [0, 1000, 2000] 2000 * Water.VOLUME_PER_PARTICLE) ∧
    Playground.ratePass [0, 1000, 2000] 0 7 2000 =
      (recentOf [0, 1000, 2000] 2000, 2000, rateOf [0, 1000, 2000] 2000) :=
  ⟨by norm_num,
    ((C4_rolling_window [0, 1000, 2000] 0 7 2000).2.1 (by norm_num)).1,
    ((C4_rolling_window [0, 1000, 2000] 0 7 2000).2.1 (by norm_num)).2⟩

theorem recordCrossing_iterate (N : ℕ) (s : Electric.MeasState) :
    Electric.recordCrossing^[N] s =
      ⟨s.particlesCrossed + N, s.lastMeasureTime, s.displayRate⟩ := by
  induction N generalizing s with
  | zero => rfl
  | succ n ih =>
    rw [Function.iterate_succ_apply, ih]
    simp [Electric.recordCrossing]
    omega

/-- C5: the electric estimator counts crossings in a wall-clock bucket; once
at least 1 second has elapsed since the last bucket boundary, the measurement
pass publishes particlesCrossed * 0.01 Coulombs as the displayed rate, resets
the counter and restarts the bucket, so N crossings within one bucket report
exactly N * 0.01; before the boundary the pass changes nothing, and disabling
measurement zeroes both the counter and the displayed rate at once. -/
theorem C5_instantaneous_window (N : ℕ) (t0 d now : ℚ) (hnow : 1000 ≤ now - t0) :
    Electric.measurePass (Electric.recordCrossing^[N] ⟨0, t0, d⟩) now =
      ⟨0, now, (N : ℚ) * Electric.CHARGE_PER_PARTICLE⟩ ∧
    (∀ s : Electric.MeasState, now - s.lastMeasureTime < 1000 →
      Electric.measurePass s now = s) ∧
    (∀ (s : Electric.MeasState) (t : ℚ),
      (Electric.disableMeasurement s t).displayRate = 0 ∧
      (Electric.disableMeasurement s t).particlesCrossed = 0) := by
  refine ⟨?_, ?_, ?_⟩
  · rw [recordCrossing_iterate]
    unfold Electric.measurePass
    rw [if_pos (by simpa using hnow)]
    simp
  · intro s hs
    unfold Electric.measurePass
    rw [if_neg (by linarith)]
  · intro s t
    exact ⟨rfl, rfl⟩

/-- Witness for C5: three crossings recorded in a bucket that closes at
t = 1500 report a rate of 3 * 0.01 and reset the counter. -/
theorem C5_witness :
    (1000 : ℚ) ≤ 1500 - 0 ∧
    Electric.measurePass (Electric.recordCrossing^[3] ⟨0, 0, 5⟩) 1500 =
      ⟨0, 1500, (3 : ℚ) * Electric.CHARGE_PER_PARTICLE⟩ :=
  ⟨by norm_num, (C5_instantaneous_window 3 0 5 1500 (by norm_num)).1⟩

/-- C7: the instant measurement is disabled each simulation clears its
crossing log (or counter) and zeroes the displayed rate; and whenever a
rolling-window estimation pass runs, the stored log afterwards holds no
timestamp older than the 5-second retention window. -/
theorem C7_disable_and_prune :
    (∀ (s : Electric.State) (now : ℚ), s.measureRate = false →
      (Electric.measureRateEffect s now).particlesCrossed = 0 ∧
      (Electric.measureRateEffect s now).displayRate = 0) ∧
    (∀ (s : Water.State) (now : ℚ), s.measureRate = false →
      (Water.measureRateEffect s now).crossingsTimestamps = [] ∧
      (Water.measureRateEffect s now).displayRate = 0) ∧
    (∀ (s : Playground.State) (now : ℚ), s.measureRate = false →
      (Playground.measureRateEffect s now).crossingsTimestamps = [] ∧
      (Playground.measureRateEffect s now).displayRate = 0) ∧
    (∀ (log : List ℚ) (lastUi display now : ℚ), 100 < now - lastUi →
      ∀ t ∈ (Water.ratePass log lastUi display now).1, now - 5000 ≤ t) ∧
    (∀ (log : List ℚ) (lastUi display now : ℚ), 100 < now - lastUi →
      ∀ t ∈ (Playground.ratePass log lastUi display now).1, now - 5000 ≤ t) := by
  refine ⟨?_, ?_, ?_, ?_, ?_⟩
  · intro s now h
    unfold Electric.measureRateEffect
    rw [h]
    exact ⟨rfl, rfl⟩
  · intro s now h
    unfold Water.measureRateEffect
    rw [h]
    exact ⟨rfl, rfl⟩
  · intro s now h
    unfold Playground.measureRateEffect
    rw [h]
    exact ⟨rfl, rfl⟩
  · intro log lastUi display now h t ht
    unfold Water.ratePass at ht
    rw [if_pos h] at ht
    exact recentOf_mem_ge log now t ht
  · intro log lastUi display now h t ht
    unfold Playground.ratePass at ht
    rw [if_pos h] at ht
    exact recentOf_mem_ge log now t ht

/-- Witness for C7: disabling measurement on a concrete water state with a
non-empty log clears the log and zeroes the display. -/
theorem C7_witness :
    (⟨false, 20, 90, 33, false, 2, [100, 200], 150, [(0, 640)]⟩ :
        Water.State).measureRate = false ∧
    (Water.measureRateEffect
        ⟨false, 20, 90, 33, false, 2, [100, 200], 150, [(0, 640)]⟩
        5).crossingsTimestamps = [] ∧
    (Water.measureRateEffect
        ⟨false, 20, 90, 33, false, 2, [100, 200], 150, [(0, 640)]⟩
        5).displayRate = 0 :=
  ⟨rfl,
    (C7_disable_and_prune.2.1 ⟨false, 20, 90, 33, false, 2, [100, 200], 150, [(0, 640)]⟩ 5 rfl).1,
    (C7_disable_and_prune.2.1 ⟨false, 20, 90, 33, false, 2, [100, 200], 150, [(0, 640)]⟩ 5 rfl).2⟩

theorem seedParticles_getD (count i : ℕ) (h : i < count) :
    (seedParticles count).getD i (0, 0) =
      (i, (i : ℚ) / (count : ℚ) * TOTAL_PATH_LENGTH) := by
  unfold seedParticles
  rw [List.getD_eq_getElem?_getD, List.getElem?_map, List.getElem?_range h]
  rfl

theorem seedParticles_progress (count i : ℕ) (h : i < count) :
    (seedParticles count).getD i (0, 0) = (i, (i : ℚ) / (count : ℚ) * 1000) := by
  rw [seedParticles_getD count i h]
  norm_num [TOTAL_PATH_LENGTH]

/-- C6: invoking reset from any state (whose displayed rate already obeys the
measurement-off invariant maintained by the effects) leaves isPlaying false,
the sliders at their initial constants (voltage 50, wireWidth 50;
heightDifference 50, pipeWidth 50; slideHeight 50, slideWidth 50),
measurement disabled, the displayed rate 0, and the entities re-seeded at
progress_i = (i / count) * 1000 exactly. -/
theorem C6_reset (se : Electric.State) (sw : Water.State) (sp : Playground.State)
    (now : ℚ)
    (he : se.measureRate = false → se.displayRate = 0)
    (hw : sw.measureRate = false → sw.displayRate = 0)
    (hp : sp.measureRate = false → sp.displayRate = 0) :
    ((Electric.reset se now).isPlaying = false ∧
      (Electric.reset se now).voltage = 50 ∧
      (Electric.reset se now).wireWidth = 50 ∧
      (Electric.reset se now).measureRate = false ∧
      (Electric.reset se now).displayRate = 0 ∧
      (Electric.reset se now).particles = seedParticles Electric.PARTICLE_COUNT ∧
      ∀ i : ℕ, i < Electric.PARTICLE_COUNT →
        (seedParticles Electric.PARTICLE_COUNT).getD i (0, 0) =
          (i, (i : ℚ) / (Electric.PARTICLE_COUNT : ℚ) * 1000)) ∧
    ((Water.reset sw now).isPlaying = false ∧
      (Water.reset sw now).heightDifference = 50 ∧
      (Water.reset sw now).pipeWidth = 50 ∧
      (Water.reset sw now).measureRate = false ∧
      (Water.reset sw now).displayRate = 0 ∧
      (Water.reset sw now).particles = seedParticles Water.PARTICLE_COUNT ∧
      ∀ i : ℕ, i < Water.PARTICLE_COUNT →
        (seedParticles Water.PARTICLE_COUNT).getD i (0, 0) =
          (i, (i : ℚ) / (Water.PARTICLE_COUNT : ℚ) * 1000)) ∧
    ((Playground.reset sp now).isPlaying = false ∧
      (Playground.reset sp now).slideHeight = 50 ∧
      (Playground.reset sp now).slideWidth = 50 ∧
      (Playground.reset sp now).measureRate = false ∧
      (Playground.reset sp now).displayRate = 0 ∧
      (Playground.reset sp now).kids = seedParticles Playground.KID_COUNT ∧
      ∀ i : ℕ, i < Playground.KID_COUNT →
        (seedParticles Playground.KID_COUNT).getD i (0, 0) =
          (i, (i : ℚ) / (Playground.KID_COUNT : ℚ) * 1000)) := by
  refine ⟨?_, ?_, ?_⟩
  · cases hb : se.measureRate
    · refine ⟨?_, ?_, ?_, ?_, ?_, ?_, fun i hi => seedParticles_progress _ i hi⟩ <;>
        simp [Electric.reset, Electric.handleReset, Electric.measureRateEffect, hb,
          Electric.INITIAL_VOLTAGE, Electric.INITIAL_WIRE_WIDTH, he hb,
          seedParticles_getD, TOTAL_PATH_LENGTH]
    · refine ⟨?_, ?_, ?_, ?_, ?_, ?_, fun i hi => seedParticles_progress _ i hi⟩ <;>
        simp [Electric.reset, Electric.handleReset, Electric.measureRateEffect, hb,
          Electric.INITIAL_VOLTAGE, Electric.INITIAL_WIRE_WIDTH,
          seedParticles_getD, TOTAL_PATH_LENGTH]
  · cases hb : sw.measureRate
    · refine ⟨?_, ?_, ?_, ?_, ?_, ?_, fun i hi => seedParticles_progress _ i hi⟩ <;>
        simp [Water.reset, Water.handleReset, Water.measureRateEffect, hb,
          Water.INITIAL_HEIGHT_DIFFERENCE, Water.INITIAL_PIPE_WIDTH, hw hb,
          seedParticles_getD, TOTAL_PATH_LENGTH]
    · refine ⟨?_, ?_, ?_, ?_, ?_, ?_, fun i hi => seedParticles_progress _ i hi⟩ <;>
        simp [Water.reset, Water.handleReset, Water.measureRateEffect, hb,
          Water.INITIAL_HEIGHT_DIFFERENCE, Water.INITIAL_PIPE_WIDTH,
          seedParticles_getD, TOTAL_PATH_LENGTH]
  · cases hb : sp.measureRate
    · refine ⟨?_, ?_, ?_, ?_, ?_, ?_, fun i hi => seedParticles_progress _ i hi⟩ <;>
        simp [Playground.reset, Playground.handleReset, Playground.measureRateEffect, hb,
          Playground.INITIAL_SLIDE_HEIGHT, Playground.INITIAL_SLIDE_WIDTH, hp hb,
          seedParticles_getD, TOTAL_PATH_LENGTH]
    · refine ⟨?_, ?_, ?_, ?_, ?_, ?_, fun i hi => seedParticles_progress _ i hi⟩ <;>
        simp [Playground.reset, Playground.handleReset, Playground.measureRateEffect, hb,
          Playground.INITIAL_SLIDE_HEIGHT, Playground.INITIAL_SLIDE_WIDTH,
          seedParticles_getD, TOTAL_PATH_LENGTH]

/-- Witness for C6: resetting the concrete mid-play sample states at time 5
disables playback and measurement, restores the initial constants, zeroes the
display and re-seeds the entities. -/
theorem C6_witness :
    (Electric.reset sampleElectricState 5).displayRate = 0 ∧
    (Electric.reset sampleElectricState 5).voltage = 50 ∧
    (Water.reset sampleWaterState 5).displayRate = 0 ∧
    (Water.reset sampleWaterState 5).heightDifference = 50 ∧
    (Playground.reset samplePlaygroundState 5).displayRate = 0 ∧
    (Playground.reset samplePlaygroundState 5).slideHeight = 50 := by
  have h := C6_reset sampleElectricState sampleWaterState samplePlaygroundState 5
    (by intro hcon; simp [sampleElectricState] at hcon)
    (by intro hcon; simp [sampleWaterState] at hcon)
    (by intro hcon; simp [samplePlaygroundState] at hcon)
  exact ⟨h.1.2.2.2.2.1, h.1.2.1, h.2.1.2.2.2.2.1, h.2.1.2.1,
    h.2.2.2.2.2.2.1, h.2.2.2.1⟩

theorem jsMod_idem_total (a : ℚ) :
    jsMod (jsMod a TOTAL_PATH_LENGTH) TOTAL_PATH_LENGTH = jsMod a TOTAL_PATH_LENGTH := by
  unfold TOTAL_PATH_LENGTH
  exact jsMod_idem a

theorem jsMod_1005 : jsMod (TOTAL_PATH_LENGTH + 5) TOTAL_PATH_LENGTH = 5 := by
  unfold TOTAL_PATH_LENGTH jsMod ratTrunc
  have hfl : ⌊(1005 / 1000 : ℚ)⌋ = 1 :=
    Int.floor_eq_iff.mpr ⟨by norm_num, by norm_num⟩
  rw [if_pos (by norm_num), show ((1000 : ℚ) + 5) / 1000 = 1005 / 1000 by norm_num, hfl]
  norm_num

/-- C8: every position function factors through progress mod 1000: for all
entity and geometry parameters, position(progress) = position(progress mod
1000); in particular position(totalPathLength + 5) equals position(5)
exactly, in all three simulations. -/
theorem C8_progress_wraparound (progress : ℚ) (particleId totalParticles : ℕ)
    (width strokeWidth heightDifference slideHeight : ℚ) :
    (Electric.getParticlePosition progress particleId totalParticles width strokeWidth =
      Electric.getParticlePosition (jsMod progress TOTAL_PATH_LENGTH) particleId
        totalParticles width strokeWidth) ∧
    (Water.getParticlePosition progress particleId totalParticles width strokeWidth
        heightDifference =
      Water.getParticlePosition (jsMod progress TOTAL_PATH_LENGTH) particleId
        totalParticles width strokeWidth heightDifference) ∧
    (Playground.getKidPosition progress particleId totalParticles width slideHeight =
      Playground.getKidPosition (jsMod progress TOTAL_PATH_LENGTH) particleId
        totalParticles width slideHeight) ∧
    (Electric.getParticlePosition (TOTAL_PATH_LENGTH + 5) particleId totalParticles
        width strokeWidth =
      Electric.getParticlePosition 5 particleId totalParticles width strokeWidth) ∧
    (Water.getParticlePosition (TOTAL_PATH_LENGTH + 5) particleId totalParticles width
        strokeWidth heightDifference =
      Water.getParticlePosition 5 particleId totalParticles width strokeWidth
        heightDifference) ∧
    (Playground.getKidPosition (TOTAL_PATH_LENGTH + 5) particleId totalParticles width
        slideHeight =
      Playground.getKidPosition 5 particleId totalParticles width slideHeight) := by
  have hE : ∀ pr : ℚ,
      Electric.getParticlePosition pr particleId totalParticles width strokeWidth =
        Electric.getParticlePosition (jsMod pr TOTAL_PATH_LENGTH) particleId
          totalParticles width strokeWidth := by
    intro pr
    simp only [Electric.getParticlePosition, jsMod_idem_total]
  have hW : ∀ pr : ℚ,
      Water.getParticlePosition pr particleId totalParticles width strokeWidth
          heightDifference =
        Water.getParticlePosition (jsMod pr TOTAL_PATH_LENGTH) particleId
          totalParticles width strokeWidth heightDifference := by
    intro pr
    simp only [Water.getParticlePosition, jsMod_idem_total]
  have hP : ∀ pr : ℚ,
      Playground.getKidPosition pr particleId totalParticles width slideHeight =
        Playground.getKidPosition (jsMod pr TOTAL_PATH_LENGTH) particleId
          totalParticles width slideHeight := by
    intro pr
    simp only [Playground.getKidPosition, jsMod_idem_total]
  refine ⟨hE progress, hW progress, hP progress, ?_, ?_, ?_⟩
  · rw [hE (TOTAL_PATH_LENGTH + 5), jsMod_1005]
  · rw [hW (TOTAL_PATH_LENGTH + 5), jsMod_1005]
  · rw [hP (TOTAL_PATH_LENGTH + 5), jsMod_1005]

/-- C9 fails as stated: the playground lane offset is the fixed per-lane
spacing 12, independent of the rendered slide stroke width.  At kidId 0,
totalKids 2 the offsets at widths 50 and 100 are -6 and -18, and no single
stroke-width scaling constant c reproduces both from
(lane - (numLanes - 1)/2) * (slideStrokeWidth * c). -/
theorem C9_counterexample :
    Playground.kidOffset 0 2 50 = -6 ∧
    Playground.kidOffset 0 2 100 = -18 ∧
    Playground.slideStrokeWidth 50 = 16 ∧
    Playground.slideStrokeWidth 100 = 24 ∧
    ¬ ∃ c : ℚ,
      Playground.kidOffset 0 2 50 =
        (0 - ((2 : ℚ) - 1) / 2) * (Playground.slideStrokeWidth 50 * c) ∧
      Playground.kidOffset 0 2 100 =
        (0 - ((4 : ℚ) - 1) / 2) * (Playground.slideStrokeWidth 100 * c) := by
  have h50 : Playground.kidOffset 0 2 50 = -6 := by
    have hfl : ⌊(50 / 25 : ℚ)⌋ = 2 := by norm_num
    simp only [Playground.kidOffset, hfl]
    norm_num
  have h100 : Playground.kidOffset 0 2 100 = -18 := by
    have hfl : ⌊(100 / 25 : ℚ)⌋ = 4 := by norm_num
    simp only [Playground.kidOffset, hfl]
    norm_num
  refine ⟨h50, h100, by norm_num [Playground.slideStrokeWidth],
    by norm_num [Playground.slideStrokeWidth], ?_⟩
  rintro ⟨c, hc1, hc2⟩
  rw [h50] at hc1
  rw [h100] at hc2
  norm_num [Playground.slideStrokeWidth] at hc1 hc2
  nlinarith [hc1, hc2]

/-- C9 (amended): in every position function numLanes =
max(1, floor(width / laneSpacing)) with laneSpacing 20 (electric) or 25
(water, playground) and lane = entityId mod numLanes; the electric and water
offsets equal (lane - (numLanes-1)/2) * (0.7 or 0.8 * strokeWidth / numLanes)
and scale linearly with the stroke width, while the playground offset is
(lane - (numLanes-1)/2) * 12, a constant lane spacing not scaled by any
stroke width; for entityCount = 1 every offset is exactly 0. -/
theorem C9_lane_offset_amended (entityId entityCount : ℕ) (width strokeWidth c : ℚ) :
    Electric.particleOffset entityId 1 width strokeWidth = 0 ∧
    Water.particleOffset entityId 1 width strokeWidth = 0 ∧
    Playground.kidOffset entityId 1 width = 0 ∧
    (1 < entityCount →
      Electric.particleOffset entityId entityCount width strokeWidth =
        ((((entityId : ℤ) % max 1 ⌊width / 20⌋ : ℤ) : ℚ) -
            (((max 1 ⌊width / 20⌋ : ℤ) : ℚ) - 1) / 2) *
          (strokeWidth * 0.7 / ((max 1 ⌊width / 20⌋ : ℤ) : ℚ))) ∧
    (1 < entityCount →
      Water.particleOffset entityId entityCount width strokeWidth =
        ((((entityId : ℤ) % max 1 ⌊width / 25⌋ : ℤ) : ℚ) -
            (((max 1 ⌊width / 25⌋ : ℤ) : ℚ) - 1) / 2) *
          (strokeWidth * 0.8 / ((max 1 ⌊width / 25⌋ : ℤ) : ℚ))) ∧
    (1 < entityCount →
      Playground.kidOffset entityId entityCount width =
        ((((entityId : ℤ) % max 1 ⌊width / 25⌋ : ℤ) : ℚ) -
            (((max 1 ⌊width / 25⌋ : ℤ) : ℚ) - 1) / 2) * 12) ∧
    Electric.particleOffset entityId entityCount width (c * strokeWidth) =
      c * Electric.particleOffset entityId entityCount width strokeWidth ∧
    Water.particleOffset entityId entityCount width (c * strokeWidth) =
      c * Water.particleOffset entityId entityCount width strokeWidth := by
  refine ⟨?_, ?_, ?_, ?_, ?_, ?_, ?_, ?_⟩
  · simp [Electric.particleOffset]
  · simp [Water.particleOffset]
  · simp [Playground.kidOffset]
  · intro h
    simp only [Electric.particleOffset, if_pos h]
  · intro h
    simp only [Water.particleOffset, if_pos h]
  · intro h
    simp only [Playground.kidOffset, if_pos h]
  · simp only [Electric.particleOffset]
    split_ifs <;> ring
  · simp only [Water.particleOffset]
    split_ifs <;> ring

/-- Witness for C9 (amended): at entityId 0, entityCount 2, width 50 the
closed-form playground offset applies and yields -6. -/
theorem C9_witness :
    1 < 2 ∧
    Playground.kidOffset 0 2 50 =
      ((((0 : ℤ) % max 1 ⌊(50 : ℚ) / 25⌋ : ℤ) : ℚ) -
          (((max 1 ⌊(50 : ℚ) / 25⌋ : ℤ) : ℚ) - 1) / 2) * 12 :=
  ⟨by norm_num, (C9_lane_offset_amended 0 2 50 8 1).2.2.2.2.2.1 (by norm_num)⟩

theorem calcPos_zero (s e : Pt) (prog : ℚ) :
    Water.calculatePosition 0 s e prog =
      ⟨s.x + (e.x - s.x) * prog, s.y + (e.y - s.y) * prog⟩ := by
  simp [Water.calculatePosition]

theorem ratSqrt_90000 : ratSqrt 90000 = 300 := by
  have h1 : ((90000 : ℚ).num.toNat * (90000 : ℚ).den) = 90000 := by
    rfl
  have h2 : Nat.sqrt 90000 = 300 := by
    rw [show (90000 : ℕ) = 300 * 300 by norm_num, Nat.sqrt_eq]
  unfold ratSqrt
  rw [h1, h2]
  norm_num [Rat.den_ofNat]

theorem bezier_end (off sh : ℚ) : Playground.seg1 off sh 300 = ⟨250, 200 + off⟩ := by
  simp only [Playground.seg1]
  norm_num [ratSqrt_90000]

theorem ratSqrt_mul_self (q : ℚ) (hq : 0 ≤ q) : ratSqrt (q * q) = q := by
  unfold ratSqrt
  rw [Rat.mul_self_num, Rat.mul_self_den]
  have hnum : 0 ≤ q.num := Rat.num_nonneg.mpr hq
  obtain ⟨n, hn⟩ := Int.eq_ofNat_of_zero_le hnum
  have h1 : (q.num * q.num).toNat * (q.den * q.den) =
      (q.num.toNat * q.den) * (q.num.toNat * q.den) := by
    rw [hn, ← Nat.cast_mul, Int.toNat_natCast, Int.toNat_natCast]
    ring
  rw [h1, Nat.sqrt_eq]
  have hden : ((q.den : ℚ)) ≠ 0 := by
    exact_mod_cast q.den_ne_zero
  have ha2 : ((q.num.toNat : ℚ)) = ((q.num : ℤ) : ℚ) := by
    rw [hn, Int.toNat_natCast]
    push_cast
    ring
  push_cast
  rw [mul_div_mul_right _ _ hden, ha2, Rat.num_div_den]

theorem ratSqrt_6400 : ratSqrt 6400 = 80 := by
  rw [show (6400 : ℚ) = 80 * 80 by norm_num]
  exact ratSqrt_mul_self 80 (by norm_num)

theorem water_seg45_all_offsets (o hd : ℚ) (h1 : 10 ≤ hd) (h2 : hd ≤ 100) :
    Water.seg4 o 500 = Water.seg5 o hd 500 := by
  have hty : Water.topY hd < 220 := by
    unfold Water.topY
    nlinarith
  have hmag : ratSqrt (0 * 0 + (Water.topY hd - 220) * (Water.topY hd - 220)) =
      220 - Water.topY hd := by
    rw [show (0 : ℚ) * 0 + (Water.topY hd - 220) * (Water.topY hd - 220) =
        (220 - Water.topY hd) * (220 - Water.topY hd) by ring]
    exact ratSqrt_mul_self _ (by linarith)
  have h4 : Water.seg4 o 500 = ⟨20 - o, 220⟩ := by
    simp only [Water.seg4, Water.calculatePosition, Water.P_BOTTOM_OUTLET,
      Water.P_PUMP_INLET]
    norm_num [ratSqrt_6400]
    ring
  have h5 : Water.seg5 o hd 500 = ⟨20 - o, 220⟩ := by
    simp only [Water.seg5, Water.calculatePosition, Water.P_PUMP_INLET]
    rw [show ((500 : ℚ) - 500) / 250 = 0 by norm_num]
    rw [show (20 : ℚ) - 20 = 0 by norm_num]
    rw [hmag]
    rw [if_neg (by linarith)]
    have hne : (220 : ℚ) - Water.topY hd ≠ 0 := by linarith
    simp only [Pt.mk.injEq]
    constructor
    · field_simp
      ring
    · field_simp
  rw [h4, h5]

/-- C1 fails as stated: with a nonzero lane offset the electric segment
formulas disagree at the 250 boundary by 1.4 units (offset applied along
different axes on the two segments), and in the water simulation even the
zero-offset formulas jump by 50 units at the 400 boundary and by 30 units at
the 1000/0 wrap (travel hidden inside the reservoirs) - all far above the
1e-6 tolerance. -/
theorem C1_counterexample :
    Electric.particleOffset 0 30 50 8 = -(7 / 5) ∧
    (Electric.seg1 (-(7 / 5)) 250).x - (Electric.seg2 (-(7 / 5)) 250).x = 7 / 5 ∧
    (Water.seg3 400).x - (Water.seg4 0 400).x = 50 ∧
    (Water.seg1 0 50 0).y - (Water.seg7 50 1000).y = 30 ∧
    ((1 : ℚ) / 1000000 < 7 / 5 ∧ (1 : ℚ) / 1000000 < 50 ∧ (1 : ℚ) / 1000000 < 30) := by
  refine ⟨?_, ?_, ?_, ?_, by norm_num⟩
  · have hfl : ⌊(50 / 20 : ℚ)⌋ = 2 := by norm_num
    simp only [Electric.particleOffset, hfl]
    norm_num
  · norm_num [Electric.seg1, Electric.seg2]
  · norm_num [Water.seg3, Water.seg4, calcPos_zero, Water.P_BOTTOM_INLET,
      Water.P_BOTTOM_OUTLET, Water.P_PUMP_INLET]
  · norm_num [Water.seg1, Water.seg7, calcPos_zero, Water.P_TOP_OUTLET,
      Water.P_TOP_INLET, Water.P_TURBINE, Water.topY]

/-- C1 (amended): at the listed segment boundaries the adjacent segment
formulas agree exactly (hence within any tolerance) in these cases: the
electric 1000/0 wrap, the playground 300 boundary, and the water 500 boundary
(whose two pipe segments are collinear and vertical; for in-range heights)
for every lane offset; all remaining electric boundaries (250, 325, 425, 500,
750, 900), the water boundaries 200, 350, 500, 750 and 950, and the
playground boundaries 600 and the wrap whenever the lane offset is zero.  The
exceptions forced by the counterexample remain: with nonzero offset the
corner boundaries disagree, and the water formulas jump at 400 and at the
wrap even with zero offset. -/
theorem C1_segment_continuity_amended (pid cnt : ℕ) (w sw hd sh : ℚ) :
    ((Electric.seg7 (Electric.particleOffset pid cnt w sw) 1000).x =
        (Electric.seg1 (Electric.particleOffset pid cnt w sw) 0).x ∧
      (Electric.seg7 (Electric.particleOffset pid cnt w sw) 1000).y =
        (Electric.seg1 (Electric.particleOffset pid cnt w sw) 0).y) ∧
    (Playground.seg1 (Playground.kidOffset pid cnt w) sh 300 =
      Playground.seg2 (Playground.kidOffset pid cnt w) 300) ∧
    (10 ≤ hd → hd ≤ 100 →
      Water.seg4 (Water.particleOffset pid cnt w sw) 500 =
        Water.seg5 (Water.particleOffset pid cnt w sw) hd 500) ∧
    (Electric.particleOffset pid cnt w sw = 0 →
      ∀ bp : ℚ × (ℚ → PtA) × (ℚ → PtA),
        bp ∈ [((250 : ℚ), Electric.seg1 0, Electric.seg2 0),
              ((325 : ℚ), Electric.seg2 0, Electric.seg3 0),
              ((425 : ℚ), Electric.seg3 0, Electric.seg4 0),
              ((500 : ℚ), Electric.seg4 0, Electric.seg5 0),
              ((750 : ℚ), Electric.seg5 0, Electric.seg6 0),
              ((900 : ℚ), Electric.seg6 0, Electric.seg7 0)] →
        (bp.2.1 bp.1).x = (bp.2.2 bp.1).x ∧ (bp.2.1 bp.1).y = (bp.2.2 bp.1).y) ∧
    (Water.particleOffset pid cnt w sw = 0 →
      Water.seg1 (Water.particleOffset pid cnt w sw) hd 200 =
        Water.seg2 (Water.particleOffset pid cnt w sw) 200 ∧
      Water.seg2 (Water.particleOffset pid cnt w sw) 350 = Water.seg3 350 ∧
      Water.seg4 (Water.particleOffset pid cnt w sw) 500 =
        Water.seg5 (Water.particleOffset pid cnt w sw) hd 500 ∧
      Water.seg5 (Water.particleOffset pid cnt w sw) hd 750 =
        Water.seg6 (Water.particleOffset pid cnt w sw) hd 750 ∧
      Water.seg6 (Water.particleOffset pid cnt w sw) hd 950 = Water.seg7 hd 950) ∧
    (Playground.kidOffset pid cnt w = 0 →
      Playground.seg2 (Playground.kidOffset pid cnt w) 600 =
        Playground.seg3 (Playground.kidOffset pid cnt w) sh 600 ∧
      Playground.seg3 (Playground.kidOffset pid cnt w) sh 1000 =
        Playground.seg1 (Playground.kidOffset pid cnt w) sh 0) := by
  refine ⟨?_, ?_, ?_, ?_, ?_, ?_⟩
  · constructor <;> norm_num [Electric.seg7, Electric.seg1]
  · rw [bezier_end]
    norm_num [Playground.seg2]
  · intro hhd1 hhd2
    exact water_seg45_all_offsets (Water.particleOffset pid cnt w sw) hd hhd1 hhd2
  · intro h bp hbp
    fin_cases hbp <;>
      constructor <;>
        norm_num [Electric.seg1, Electric.seg2, Electric.seg3, Electric.seg4,
          Electric.seg5, Electric.seg6, Electric.seg7]
  · intro h
    rw [h]
    refine ⟨?_, ?_, ?_, ?_, ?_⟩ <;>
      ( norm_num [Water.seg1, Water.seg2, Water.seg3, Water.seg4, Water.seg5,
          Water.seg6, Water.seg7, calcPos_zero, Water.P_TOP_OUTLET, Water.P_TURBINE,
          Water.P_BOTTOM_INLET, Water.P_BOTTOM_OUTLET, Water.P_PUMP_INLET,
          Water.P_TOP_INLET, Water.topY] )
  · intro h
    rw [h]
    constructor
    · norm_num [Playground.seg2, Playground.seg3]
    · simp only [Playground.seg3, Playground.seg1]
      split_ifs <;>
        ( norm_num
          try ring )

/-- Witness for C1 (amended): with a single entity the electric lane offset
is zero and the formulas on both sides of the 250 boundary agree exactly;
and at the nonzero lane offset of particle 0 among 30 (width 50, strokeWidth
8) the water segment formulas still agree at the 500 boundary for height
50. -/
theorem C1_witness :
    Electric.particleOffset 0 1 50 8 = 0 ∧
    (Electric.seg1 0 250).x = (Electric.seg2 0 250).x ∧
    (Electric.seg1 0 250).y = (Electric.seg2 0 250).y ∧
    Water.seg4 (Water.particleOffset 0 30 50 8) 500 =
      Water.seg5 (Water.particleOffset 0 30 50 8) 50 500 := by
  have h0 : Electric.particleOffset 0 1 50 8 = 0 := by
    simp [Electric.particleOffset]
  have he := (C1_segment_continuity_amended 0 1 50 8 50 50).2.2.2.1 h0
    ((250 : ℚ), Electric.seg1 0, Electric.seg2 0) (by simp)
  exact ⟨h0, he.1, he.2,
    (C1_segment_continuity_amended 0 30 50 8 50 50).2.2.1 (by norm_num) (by norm_num)⟩

/-- Witness for C2: at progress 448 with heightDifference 50 and pipeWidth
100 the water crossing condition is equivalent to an unwrapped checkpoint
crossing. -/
theorem C2_witness :
    (0 : ℚ) ≤ 448 ∧ (10 : ℚ) ≤ 100 ∧
    (Water.fired 448 50 100 ↔
      ∃ k : ℕ, (448 : ℚ) < 1000 * k + 450 ∧ 1000 * k + 450 ≤ Water.step 448 50 100) :=
  ⟨by norm_num, by norm_num,
    (C2_crossing_detection 448 50 50 100 (by norm_num) (by norm_num) (by norm_num)
      (by norm_num) (by norm_num) (by norm_num) (by norm_num)).1⟩

end ECA
